import Mathlib

/-!
Verification of the stock-market data pipeline in
`community_gallery/stock_market_analysis/hello.py`.

The script's core logic is embedded shallowly:

* `fetch_stock_data` (the "Series Normalizer"): takes the outcome of the
  market-data fetch (transport failure, or success carrying raw rows) and
  returns the normalized table (a `List PriceBar`).  The Python function
  catches every exception — including the `ValueError` it raises itself on
  an empty result — and returns an empty DataFrame, so both failure and
  success-with-zero-rows map to `[]`.
* `rollingMean`: `df["Close"].rolling(window=w).mean()` — pandas rolling
  mean with the default `min_periods = window`: position `i` (0-based)
  holds the mean of the `w` closes ending at `i` when `i + 1 ≥ w`, and NaN
  (modelled as `none`) otherwise.
* `ma_step`: step 6 of the script — the two column assignments
  `df["MA7"] = ...` and `df["MA30"] = ...`, which add columns to the frame
  without touching the existing ones.
* `filterAbove` / `filter_step`: step 7 — `filtered_df = df[df["Close"] > threshold]`,
  which builds a fresh frame and leaves `df` unbound by the block.

Decimals are modelled as `ℚ` (exact arithmetic; the spec's floating-point
tolerance is subsumed by exact equality), dates as calendar triples, and
pandas NaN as `Option`.
-/

namespace StockAnalysis

/-- A calendar date as delivered in the raw fetch's `DatetimeIndex`. -/
structure RawDate where
  year : ℕ
  month : ℕ
  day : ℕ
  deriving DecidableEq, Repr

/-- One raw row of the fetched DataFrame: the date index plus the
OHLCV columns, before normalization. -/
structure RawRow where
  date : RawDate
  Open : ℚ
  High : ℚ
  Low : ℚ
  Close : ℚ
  Volume : ℕ
  deriving DecidableEq, Repr

/-- Outcome of `yf.Ticker(symbol).history(period)`: either the transport
fails (any exception inside the `try`), or it succeeds with a list of raw
rows (possibly empty). -/
inductive FetchOutcome where
  | failure : FetchOutcome
  | success : List RawRow → FetchOutcome
  deriving DecidableEq, Repr

/-- One normalized trading-period observation (a row of the normalized
DataFrame): the date converted to its string form, plus OHLCV. -/
structure PriceBar where
  Date : String
  Open : ℚ
  High : ℚ
  Low : ℚ
  Close : ℚ
  Volume : ℕ
  deriving DecidableEq, Repr

/-- The last decimal digit of `n`, as a character (`'0'`–`'9'`). -/
def digitChar (n : ℕ) : Char := Char.ofNat (48 + n % 10)

/-- Two-digit zero-padded decimal rendering (months, days; `%02d`). -/
def pad2 (n : ℕ) : List Char := [digitChar (n / 10), digitChar n]

/-- Four-digit zero-padded decimal rendering (years; `%04d`). -/
def pad4 (n : ℕ) : List Char :=
  [digitChar (n / 1000), digitChar (n / 100), digitChar (n / 10), digitChar n]

/-- `str()` applied to a date value: the ISO `YYYY-MM-DD` rendering.
This embeds `df["Date"].astype(str)` acting on one date. -/
def dateToStr (d : RawDate) : String :=
  ⟨pad4 d.year ++ '-' :: (pad2 d.month ++ '-' :: pad2 d.day)⟩

/-- Normalization of one raw row: the date becomes its string form; the
OHLCV columns are carried over unchanged. -/
def normRow (r : RawRow) : PriceBar :=
  { Date := dateToStr r.date, Open := r.Open, High := r.High,
    Low := r.Low, Close := r.Close, Volume := r.Volume }

/-- The Series Normalizer, `fetch_stock_data`.  On transport failure the
`except` branch returns an empty DataFrame; on an empty successful fetch
the function raises `ValueError`, which the same `except` catches,
returning the empty DataFrame as well.  On a non-empty successful fetch it
resets the index and stringifies the `Date` column. -/
def fetch_stock_data (o : FetchOutcome) : List PriceBar :=
  match o with
  | FetchOutcome.failure => []
  | FetchOutcome.success rows =>
    if rows.isEmpty then [] else rows.map normRow

/-- Pandas `Series.rolling(window=w).mean()` on a column of rationals:
the output has one entry per input entry; entry `i` is the mean of the
window of the last `w` values ending at `i` when that full window exists
(`w ≤ i + 1`, the default `min_periods = window`), and NaN (`none`)
otherwise. -/
def rollingMean (xs : List ℚ) (w : ℕ) : List (Option ℚ) :=
  (List.range xs.length).map (fun i =>
    if w ≤ i + 1 then some (((xs.take (i + 1)).drop (i + 1 - w)).sum / (w : ℚ))
    else none)

/-- The frame during step 6: the normalized bars plus the two
moving-average columns, which do not exist (`none`) before the
assignments run. -/
structure MAFrame where
  bars : List PriceBar
  MA7 : Option (List (Option ℚ)) := none
  MA30 : Option (List (Option ℚ)) := none
  deriving DecidableEq, Repr

/-- Step 6 of the script: `df["MA7"] = df["Close"].rolling(window=7).mean()`
followed by `df["MA30"] = df["Close"].rolling(window=30).mean()`.  Each
assignment adds one column to the frame; the second reads `df["Close"]`
from the frame as left by the first. -/
def ma_step (df : MAFrame) : MAFrame :=
  let df1 := { df with MA7 := some (rollingMean (df.bars.map PriceBar.Close) 7) }
  let df2 := { df1 with MA30 := some (rollingMean (df1.bars.map PriceBar.Close) 30) }
  df2

/-- The threshold filter: `df[df["Close"] > threshold]` — the rows whose
close strictly exceeds the threshold, in original order. -/
def filterAbove (series : List PriceBar) (threshold : ℚ) : List PriceBar :=
  series.filter (fun b => threshold < b.Close)

/-- Step 7 of the script as a state transformer on the script variable
`df`: the block computes `filtered_df` from `df` and assigns only
`filtered_df`; `df` itself is not rebound.  Returns
`(filtered_df, df after the block)`. -/
def filter_step (df : List PriceBar) (threshold : ℚ) : List PriceBar × List PriceBar :=
  let filtered_df := filterAbove df threshold
  (filtered_df, df)

/-- Decidable check that a string has the canonical `YYYY-MM-DD` shape:
exactly ten characters, digits in the year/month/day positions, and
hyphens at positions 4 and 7. -/
def isCanonicalYMD (s : String) : Bool :=
  match s.data with
  | [y1, y2, y3, y4, h1, m1, m2, h2, d1, d2] =>
    y1.isDigit && y2.isDigit && y3.isDigit && y4.isDigit &&
    (h1 = '-') && m1.isDigit && m2.isDigit && (h2 = '-') &&
    d1.isDigit && d2.isDigit
  | _ => false

/-- A one-value price bar used as concrete test data (spec §8 examples). -/
def demoBar (dt : String) (c : ℚ) : PriceBar :=
  { Date := dt, Open := c, High := c, Low := c, Close := c, Volume := 0 }

/-- The spec §8 example series with closes `[10, 20, 30]`. -/
def demoSeries : List PriceBar :=
  [demoBar "2024-01-01" 10, demoBar "2024-01-02" 20, demoBar "2024-01-03" 30]

/-- Concrete raw rows for exercising the normalizer. -/
def demoRaw : List RawRow :=
  [{ date := ⟨2024, 1, 1⟩, Open := 10, High := 10, Low := 10, Close := 10, Volume := 0 },
   { date := ⟨2024, 1, 2⟩, Open := 20, High := 20, Low := 20, Close := 20, Volume := 0 }]

/-- The rolling mean has one output entry per input entry. -/
theorem rollingMean_length (xs : List ℚ) (w : ℕ) :
    (rollingMean xs w).length = xs.length := by
  simp [rollingMean]

/-- Pointwise characterization of the rolling mean: within bounds, entry `i`
is the mean of the `w`-window ending at `i` when `w - 1 ≤ i`, else `none`. -/
theorem rollingMean_getElem? (xs : List ℚ) (w : ℕ) (i : ℕ) (hi : i < xs.length) :
    (rollingMean xs w)[i]? =
      some (if w - 1 ≤ i then some (((xs.drop (i + 1 - w)).take w).sum / (w : ℚ))
            else none) := by
  unfold rollingMean
  rw [List.getElem?_map, List.getElem?_range hi]
  simp only [Option.map_some']
  congr 1
  by_cases h : w ≤ i + 1
  · rw [if_pos h, if_pos (Nat.sub_le_iff_le_add.mpr h)]
    rw [List.drop_take, Nat.sub_sub_self h]
  · rw [if_neg h, if_neg (fun hc => h (Nat.sub_le_iff_le_add.mp hc))]

/-- Every character produced by `digitChar` is a decimal digit. -/
theorem isDigit_digitChar (n : ℕ) : (digitChar n).isDigit = true := by
  unfold digitChar
  have h : n % 10 < 10 := Nat.mod_lt _ (by norm_num)
  set k := n % 10 with hk
  interval_cases k <;> decide

/-- The date stringification always produces the canonical `YYYY-MM-DD` shape. -/
theorem isCanonicalYMD_dateToStr (d : RawDate) :
    isCanonicalYMD (dateToStr d) = true := by
  simp [isCanonicalYMD, dateToStr, pad4, pad2, isDigit_digitChar]

/-- C1: on transport failure and on a successful fetch with zero rows,
the normalizer `fetch_stock_data` returns the empty PriceSeries; the
underlying error is absorbed, never propagated (the function is total in
the embedding, and both degenerate outcomes map to `[]`). -/
theorem C1_normalizer_absorbs_failure :
    fetch_stock_data FetchOutcome.failure = [] ∧
    fetch_stock_data (FetchOutcome.success []) = [] :=
  ⟨rfl, rfl⟩

/-- C2: for any PriceSeries and window `w > 0`, the moving-average entry at
0-based index `i` is defined iff `i ≥ w - 1`, and then equals the
arithmetic mean (sum over `w`) of the closes at indices `i-w+1 .. i`; for
`i < w - 1` it is absent (`none`). -/
theorem C2_movingAverage_pointwise (series : List PriceBar) (w : ℕ) (_hw : 0 < w)
    (i : ℕ) (hi : i < series.length) :
    (rollingMean (series.map PriceBar.Close) w)[i]? =
      some (if w - 1 ≤ i then
              some ((((series.map PriceBar.Close).drop (i + 1 - w)).take w).sum / (w : ℚ))
            else none) :=
  rollingMean_getElem? (series.map PriceBar.Close) w i (by simpa using hi)

/-- C2 witness: on the spec's example closes `[10, 20, 30]` with window 2,
index 1 holds `some 15`. -/
theorem C2_movingAverage_pointwise_witness :
    0 < 2 ∧ 1 < demoSeries.length ∧
    (rollingMean (demoSeries.map PriceBar.Close) 2)[1]? =
      some (if 2 - 1 ≤ 1 then
              some ((((demoSeries.map PriceBar.Close).drop (1 + 1 - 2)).take 2).sum / (2 : ℚ))
            else none) :=
  ⟨by decide, by decide, C2_movingAverage_pointwise demoSeries 2 (by decide) 1 (by decide)⟩

/-- C3: the threshold filter returns exactly the order-preserving maximal
subsequence of bars whose close strictly exceeds the threshold: it is a
sublist of the input, every retained close exceeds `t`, and any sublist
all of whose closes exceed `t` is a sublist of it. -/
theorem C3_filterAbove_maximal_subsequence (series : List PriceBar) (t : ℚ) :
    (filterAbove series t).Sublist series ∧
    (∀ b ∈ filterAbove series t, t < b.Close) ∧
    (∀ s' : List PriceBar, s'.Sublist series → (∀ b ∈ s', t < b.Close) →
      s'.Sublist (filterAbove series t)) := by
  refine ⟨List.filter_sublist series, ?_, ?_⟩
  · intro b hb
    have := List.mem_filter.mp hb
    simpa using this.2
  · intro s' hsub hall
    have hs' : s'.filter (fun b => t < b.Close) = s' :=
      List.filter_eq_self.mpr (fun b hb => by simpa using hall b hb)
    calc s' = s'.filter (fun b => t < b.Close) := hs'.symm
      _ |>.Sublist (filterAbove series t) := hsub.filter _

/-- C3 witness: concrete instance on the spec's example series with
threshold 10. -/
theorem C3_filterAbove_maximal_subsequence_witness :
    (filterAbove demoSeries 10).Sublist demoSeries ∧
    (∀ b ∈ filterAbove demoSeries 10, (10 : ℚ) < b.Close) ∧
    (∀ s' : List PriceBar, s'.Sublist demoSeries → (∀ b ∈ s', (10 : ℚ) < b.Close) →
      s'.Sublist (filterAbove demoSeries 10)) :=
  C3_filterAbove_maximal_subsequence demoSeries 10

/-- C4: on a successful non-empty fetch, the normalizer converts every
row's date to its canonical `YYYY-MM-DD` string form: the `Date` column is
the stringification of the raw dates, and every produced date string has
the canonical shape. -/
theorem C4_dates_canonicalized (rows : List RawRow) (hne : rows ≠ []) :
    (fetch_stock_data (FetchOutcome.success rows)).map PriceBar.Date
        = rows.map (fun r => dateToStr r.date) ∧
    ∀ b ∈ fetch_stock_data (FetchOutcome.success rows), isCanonicalYMD b.Date = true := by
  have hemp : rows.isEmpty = false := by
    cases rows with
    | nil => exact absurd rfl hne
    | cons a l => rfl
  constructor
  · simp [fetch_stock_data, hemp, normRow, List.map_map, Function.comp]
  · intro b hb
    simp only [fetch_stock_data, hemp, Bool.false_eq_true, if_false, List.mem_map] at hb
    obtain ⟨r, _, rfl⟩ := hb
    exact isCanonicalYMD_dateToStr r.date

/-- C4 witness: the two-row concrete raw fetch is normalized with canonical
date strings. -/
theorem C4_dates_canonicalized_witness :
    demoRaw ≠ [] ∧
    ((fetch_stock_data (FetchOutcome.success demoRaw)).map PriceBar.Date
        = demoRaw.map (fun r => dateToStr r.date) ∧
     ∀ b ∈ fetch_stock_data (FetchOutcome.success demoRaw), isCanonicalYMD b.Date = true) :=
  ⟨by decide, C4_dates_canonicalized demoRaw (by decide)⟩

/-- C5: step 6 leaves every existing column of the frame unchanged (the
bars, hence every date/open/high/low/close/volume value, are exactly the
input's), and the two moving-average columns are each a function of the
input closes alone: `MA7` is the window-7 rolling mean and `MA30` the
window-30 rolling mean of the same input close column. -/
theorem C5_ma_step_frame (df : MAFrame) :
    (ma_step df).bars = df.bars ∧
    (ma_step df).MA7 = some (rollingMean (df.bars.map PriceBar.Close) 7) ∧
    (ma_step df).MA30 = some (rollingMean (df.bars.map PriceBar.Close) 30) :=
  ⟨rfl, rfl, rfl⟩

/-- C6: for any window `w > 0`, the derived series has exactly the length
of the input PriceSeries. -/
theorem C6_movingAverage_length (series : List PriceBar) (w : ℕ) (_hw : 0 < w) :
    (rollingMean (series.map PriceBar.Close) w).length = series.length := by
  rw [rollingMean_length, List.length_map]

/-- C6 witness: window 7 on the three-bar example series yields a
three-entry derived series. -/
theorem C6_movingAverage_length_witness :
    0 < 7 ∧ (rollingMean (demoSeries.map PriceBar.Close) 7).length = demoSeries.length :=
  ⟨by decide, C6_movingAverage_length demoSeries 7 (by decide)⟩

/-- C7: derived metrics and the threshold filter are total (no failure
modes in the embedding) and map the empty series to empty output:
`movingAverage [] w = []` for every window — in particular window 7 — and
`filterAbove [] t = []` for every threshold. -/
theorem C7_empty_in_empty_out :
    rollingMean ([] : List ℚ) 7 = [] ∧
    (∀ w : ℕ, rollingMean ([] : List ℚ) w = []) ∧
    (∀ t : ℚ, filterAbove [] t = []) :=
  ⟨rfl, fun _ => rfl, fun _ => rfl⟩

/-- C8: the normalizer is deterministic — two applications to the same raw
fetch outcome yield identical output (in the embedding it is a pure
function, so freedom from side effects holds by construction). -/
theorem C8_normalize_deterministic (o₁ o₂ : FetchOutcome) (h : o₁ = o₂) :
    fetch_stock_data o₁ = fetch_stock_data o₂ := by
  rw [h]

/-- C8 witness: concrete determinism instance on a successful fetch. -/
theorem C8_normalize_deterministic_witness :
    FetchOutcome.success demoRaw = FetchOutcome.success demoRaw ∧
    fetch_stock_data (FetchOutcome.success demoRaw)
      = fetch_stock_data (FetchOutcome.success demoRaw) :=
  ⟨rfl, C8_normalize_deterministic _ _ rfl⟩

/-- C9: the threshold-filter step does not mutate the script's `df`: after
the step the state is the original series, the filtered output is a fresh
value computed by `filterAbove`, and a later filter with another threshold
applied to the post-step state sees the full original series. -/
theorem C9_filter_step_frame (df : List PriceBar) (t t' : ℚ) :
    (filter_step df t).2 = df ∧
    (filter_step df t).1 = filterAbove df t ∧
    (filter_step ((filter_step df t).2) t').1 = filterAbove df t' :=
  ⟨rfl, rfl, rfl⟩

/-- C10: when the series is shorter than the window, every entry of the
derived series is absent; in particular a 30-day moving average over fewer
than 30 bars has no defined value. -/
theorem C10_short_series_all_absent (series : List PriceBar) (w : ℕ)
    (h : series.length < w) :
    ∀ v ∈ rollingMean (series.map PriceBar.Close) w, v = none := by
  intro v hv
  unfold rollingMean at hv
  rw [List.mem_map] at hv
  obtain ⟨i, hi, rfl⟩ := hv
  rw [List.mem_range, List.length_map] at hi
  rw [if_neg]
  omega

/-- C10 witness: the 30-day moving average over the three-bar example
series is entirely absent. -/
theorem C10_short_series_all_absent_witness :
    demoSeries.length < 30 ∧
    ∀ v ∈ rollingMean (demoSeries.map PriceBar.Close) 30, v = none :=
  ⟨by decide, C10_short_series_all_absent demoSeries 30 (by decide)⟩

end StockAnalysis
